import Mathlib

/-!
Shallow embedding of the session-oriented visa-status checking service
(source: src/api/server.py and src/api/captcha_handler.py).

The embedding models:
 - the session registry (the module-level sessions dict guarded by
   sessions_lock), as an association list of session id to checker,
   together with event logs recording which session ids had a browser
   started (start_browser) and released (close_browser);
 - VisaStatusChecker.is_expired and the reaper cleanup_expired_sessions
   (one cycle of its while-loop body);
 - the submit endpoint submit_visa_check;
 - the automatic endpoint check_visa_status_auto, with its inner CAPTCHA
   retry while-loop modelled as a fuel-structured recursion
   (check_auto_loop); the external site is an oracle (AutoEnv) giving,
   for each submission attempt, whether the CAPTCHA image fetch succeeds
   and what submit_with_captcha returns;
 - the error branch of VisaStatusChecker.get_status_result;
 - VisaStatusChecker.close_browser as a four-step close sequence under a
   try/except that swallows any error raised by an underlying close;
 - ManualCaptchaHandle.solve.
-/

namespace VisaServer

/-- Substring test helper: does the second code list start with the
first one?  (Used to embed Python's "sub in s" membership test.) -/
def startsWithNat : List Nat → List Nat → Bool
  | [], _ => true
  | _ :: _, [] => false
  | a :: as, b :: bs => a == b && startsWithNat as bs

/-- Embeds Python's substring containment "needle in hay" on lists of
character codes. -/
def containsNatList : List Nat → List Nat → Bool
  | needle, [] => needle.isEmpty
  | needle, b :: bs => startsWithNat needle (b :: bs) || containsNatList needle bs

/-- The character code after str.lower(), for the ASCII range the
server's error messages use: uppercase letters move down by 32. -/
def lowerCode (c : Char) : Nat :=
  if 65 ≤ c.toNat && c.toNat ≤ 90 then c.toNat + 32 else c.toNat

/-- Embeds Python's "needle in hay.lower()" for an ASCII needle that is
already lowercase (lowering the needle too is then the identity). -/
def containsLower (needle hay : String) : Bool :=
  containsNatList (needle.data.map lowerCode) (hay.data.map lowerCode)

/-- The dict returned by VisaStatusChecker.submit_with_captcha /
get_status_result: a success flag, an optional error string, an optional
base64 screenshot, and the extracted status fields. -/
structure SubmitResult where
  success : Bool
  error : Option String
  screenshot : Option String
  data : List (String × String)
  deriving DecidableEq, Repr

/-- The CAPTCHA-rejection classification used by check_visa_status_auto
(server.py line 959): the result has an error string and that string,
lowercased, contains the substring "captcha". -/
def isCaptchaRejected (r : SubmitResult) : Bool :=
  match r.error with
  | some e => containsLower "captcha" e
  | none => false

/-- The error branch of VisaStatusChecker.get_status_result
(server.py lines 545-551): when error elements are found on the page the
method returns success False with the joined error texts, and no
screenshot and no data. -/
def get_status_result_errors (errors : List String) : SubmitResult :=
  { success := false
  , error := some (String.intercalate " " errors)
  , screenshot := none
  , data := [] }

/-- SESSION_TIMEOUT from server.py line 26 (seconds). -/
def SESSION_TIMEOUT : Nat := 300

/-- Model of a VisaStatusChecker as far as the registry and the reaper
observe it: its creation timestamp (seconds). -/
structure VisaStatusChecker where
  created_at : Nat
  deriving DecidableEq, Repr

/-- VisaStatusChecker.is_expired (server.py lines 154-156): elapsed time
since creation strictly greater than SESSION_TIMEOUT. -/
def VisaStatusChecker.is_expired (c : VisaStatusChecker) (now : Nat) : Bool :=
  SESSION_TIMEOUT < now - c.created_at

/-- The server's mutable state: the sessions dict, plus event logs for
browser allocation (start_browser) and release (close_browser), recorded
by session id. -/
structure ServerState where
  sessions : List (String × VisaStatusChecker)
  started : List String
  closed : List String
  deriving DecidableEq, Repr

/-- sessions.get(session_id): dict lookup. -/
def lookupSession (st : ServerState) (sid : String) : Option VisaStatusChecker :=
  (st.sessions.find? (fun p => p.1 == sid)).map (fun p => p.2)

/-- sessions.pop(session_id, None): remove the entry for the key and
return it (the dict's keys are unique, so filtering every pair with this
key removes exactly the entry). -/
def popSession (st : ServerState) (sid : String) :
    ServerState × Option VisaStatusChecker :=
  ({ st with sessions := st.sessions.filter (fun p => !(p.1 == sid)) },
   lookupSession st sid)

/-- sessions[session_id] = checker: dict assignment, which replaces an
existing entry for the key and otherwise appends a new one. -/
def storeSession (st : ServerState) (sid : String) (c : VisaStatusChecker) :
    ServerState :=
  if st.sessions.any (fun p => p.1 == sid) then
    { st with sessions := st.sessions.map (fun p => if p.1 == sid then (sid, c) else p) }
  else
    { st with sessions := st.sessions ++ [(sid, c)] }

/-- Record that start_browser ran for this session id. -/
def logStart (st : ServerState) (sid : String) : ServerState :=
  { st with started := st.started ++ [sid] }

/-- Record that close_browser ran for this session id. -/
def logClose (st : ServerState) (sid : String) : ServerState :=
  { st with closed := st.closed ++ [sid] }

/-- The session-creation step shared by the endpoints (server.py lines
673-676 and 917-920): make a fresh VisaStatusChecker and dict-assign it
under the id. -/
def createSession (st : ServerState) (sid : String) (now : Nat) : ServerState :=
  storeSession st sid { created_at := now }

/-- One pop-and-release step of the reaper's second loop (server.py lines
623-630): pop the id; if a checker came out, close its browser. -/
def reapOne (s : ServerState) (sid : String) : ServerState :=
  match popSession s sid with
  | (s1, some _) => logClose s1 sid
  | (s1, none) => s1

/-- The ids collected by the reaper's first loop (server.py lines
617-621): every session whose checker is_expired. -/
def expiredIds (st : ServerState) (now : Nat) : List String :=
  (st.sessions.filter (fun p => p.2.is_expired now)).map (fun p => p.1)

/-- One cycle of cleanup_expired_sessions (server.py lines 613-636):
collect the expired ids, then pop each and close its browser. -/
def cleanup_expired_sessions_cycle (st : ServerState) (now : Nat) : ServerState :=
  (expiredIds st now).foldl reapOne st

/-- list_sessions (server.py lines 798-814): id, created_at, is_expired
for every registry entry. -/
def list_sessions (st : ServerState) (now : Nat) : List (String × Nat × Bool) :=
  st.sessions.map (fun p => (p.1, p.2.created_at, p.2.is_expired now))

/-- A JSON response from an endpoint: success flag, error string, HTTP
status code, and the embedded submit result when one is returned. -/
structure ApiResponse where
  success : Bool
  error : Option String
  httpStatus : Nat
  body : Option SubmitResult
  deriving DecidableEq, Repr

/-- submit_visa_check (server.py lines 726-772): validate inputs, look
the session up, drop it if expired; otherwise submit (the outcome of
submit_with_captcha is the oracle argument), then pop the session and
close its browser before returning the result. -/
def submit_visa_check (st : ServerState) (now : Nat)
    (session_id : Option String) (captcha_solution : Option String)
    (outcome : SubmitResult) : ServerState × ApiResponse :=
  match session_id with
  | none => (st, ⟨false, some "Missing session_id", 400, none⟩)
  | some sid =>
    match captcha_solution with
    | none => (st, ⟨false, some "Missing captcha_solution", 400, none⟩)
    | some _ =>
      match lookupSession st sid with
      | none => (st, ⟨false, some "Invalid or expired session", 400, none⟩)
      | some chk =>
        if chk.is_expired now then
          let st2 := logClose (popSession st sid).1 sid
          (st2, ⟨false, some "Session expired", 400, none⟩)
        else
          let result := outcome
          let st2 := logClose (popSession st sid).1 sid
          (st2, ⟨result.success, result.error,
                 if result.success then 200 else 400, some result⟩)

/-- Which CaptchaHandle subclass the global captcha_handler is: the
ONNX solver or the manual (human-required) one. -/
inductive SolverKind where
  | onnx
  | manual
  deriving DecidableEq, Repr

/-- The caller-supplied identifying fields of a check request. -/
structure CheckRequest where
  location : String
  application_id : String
  passport_number : String
  surname : String
  deriving DecidableEq, Repr

/-- Python's all([location, application_id, passport_number, surname]):
all four fields present and non-empty. -/
def validFields (req : CheckRequest) : Bool :=
  !(req.location == "") && !(req.application_id == "") &&
  !(req.passport_number == "") && !(req.surname == "")

/-- Oracle for the external site inside the check-auto retry loop: for
the k-th loop iteration, whether get_captcha_image returns an image, and
the dict submit_with_captcha returns for that attempt. -/
structure AutoEnv where
  fetchOk : Nat → Bool
  outcome : Nat → SubmitResult

/-- The observable steps the check-auto retry loop performs, in order. -/
inductive Action where
  | fetchImage
  | solveCaptcha
  | submit
  | incRetry
  | reloadPage
  | refillForm (location application_id passport_number surname : String)
  deriving DecidableEq, Repr

/-- Is this action a CAPTCHA submission (submit_with_captcha call)? -/
def Action.isSubmitStep : Action → Bool
  | .submit => true
  | _ => false

/-- Is this action an increment of retry_count? -/
def Action.isIncRetryStep : Action → Bool
  | .incRetry => true
  | _ => false

/-- What the check-auto retry loop produced: the final value of the
result variable, the final value of retry_count, the trace of observable
actions, and the exception message when the loop raised. -/
structure LoopOut where
  result : Option SubmitResult
  finalRetry : Nat
  trace : List Action
  raised : Option String
  deriving DecidableEq, Repr

/-- Fuel-structured embedding of the while-loop of check_visa_status_auto
(server.py lines 937-970).  The loop guard is retry_count < max_retries;
the fuel is max_retries - retry_count, which decreases by one exactly
when retry_count is incremented.  Each iteration fetches the CAPTCHA
image (raising if that fails), solves it, submits, and then: stops on
success; on a result whose error mentions "captcha", increments
retry_count, reloads the page and re-fills the form with the request's
fields before looping; stops on any other outcome.  The result variable
keeps the last submission's dict. -/
def check_auto_loop_fuel (req : CheckRequest) (env : AutoEnv) :
    Nat → Nat → Nat → LoopOut
  | 0, retry_count, _ => ⟨none, retry_count, [], none⟩
  | fuel + 1, retry_count, attempt =>
    if env.fetchOk attempt then
      let r := env.outcome attempt
      if r.success then
        ⟨some r, retry_count, [.fetchImage, .solveCaptcha, .submit], none⟩
      else if isCaptchaRejected r then
        let rest := check_auto_loop_fuel req env fuel (retry_count + 1) (attempt + 1)
        ⟨some (rest.result.getD r), rest.finalRetry,
         .fetchImage :: .solveCaptcha :: .submit :: .incRetry :: .reloadPage ::
           .refillForm req.location req.application_id req.passport_number req.surname ::
             rest.trace,
         rest.raised⟩
      else
        ⟨some r, retry_count, [.fetchImage, .solveCaptcha, .submit], none⟩
    else
      ⟨none, retry_count, [.fetchImage], some "Failed to get CAPTCHA image"⟩

/-- The check-auto retry loop started at a given retry_count and attempt
index (entry point of the while-loop at server.py line 940). -/
def check_auto_loop (req : CheckRequest) (env : AutoEnv)
    (max_retries retry_count attempt : Nat) : LoopOut :=
  check_auto_loop_fuel req env (max_retries - retry_count) retry_count attempt

/-- The value the endpoint returns after the loop (server.py line 980):
the result variable if the loop set it, else the default failure dict. -/
def check_auto_final_result (lr : LoopOut) : SubmitResult :=
  match lr.result with
  | some r => r
  | none => ⟨false, some "Failed after all retries", none, []⟩

/-- check_visa_status_auto (server.py lines 891-990): validate fields;
require the ONNX solver (else fail without touching the registry);
create the session and start its browser; navigate and fill (modelled by
the navOk and fillOk oracles, raising on failure); run the CAPTCHA retry
loop; pop the session and close the browser; return the final result, or
a 500 response when the try-block raised. -/
def check_visa_status_auto (st : ServerState) (solver : SolverKind)
    (req : CheckRequest) (max_retries : Nat) (sid : String) (now : Nat)
    (navOk fillOk : Bool) (env : AutoEnv) : ServerState × ApiResponse :=
  if !(validFields req) then
    (st, ⟨false,
          some "Missing required fields: location, application_id, passport_number, surname",
          400, none⟩)
  else if !(solver == SolverKind.onnx) then
    (st, ⟨false, some "Automatic CAPTCHA solving not available. ONNX model not loaded.",
          400, none⟩)
  else
    let st1 := logStart (createSession st sid now) sid
    if !navOk then
      let st2 := logClose (popSession st1 sid).1 sid
      (st2, ⟨false, some "Failed to navigate to visa status page", 500, none⟩)
    else if !fillOk then
      let st2 := logClose (popSession st1 sid).1 sid
      (st2, ⟨false, some "Failed to fill form", 500, none⟩)
    else
      let lr := check_auto_loop req env max_retries 0 0
      match lr.raised with
      | some msg =>
        let st2 := logClose (popSession st1 sid).1 sid
        (st2, ⟨false, some msg, 500, none⟩)
      | none =>
        let st2 := logClose (popSession st1 sid).1 sid
        let r := check_auto_final_result lr
        (st2, ⟨r.success, r.error, if r.success then 200 else 400, some r⟩)

/-- The four playwright handles a VisaStatusChecker holds (page, context,
browser, playwright): for each, whether the field is set (not None) and
whether its underlying close has already run. -/
structure Browser where
  pageSet : Bool
  pageClosed : Bool
  ctxSet : Bool
  ctxClosed : Bool
  brSet : Bool
  brClosed : Bool
  pwSet : Bool
  pwClosed : Bool
  deriving DecidableEq, Repr

/-- VisaStatusChecker.close_browser (server.py lines 140-152): close
page, context, browser and playwright in order inside a try/except that
logs and swallows any exception.  A second close of an already-closed
handle is the hazard the except guards against: it is modelled as
raising, which aborts the remaining closes but is caught, so the call
always returns normally.  The returned Option String is the logged
(caught) error message, never a propagated exception. -/
def close_browser (b : Browser) : Browser × Option String :=
  if b.pageSet && b.pageClosed then (b, some "Error closing browser") else
  let b1 := if b.pageSet then { b with pageClosed := true } else b
  if b1.ctxSet && b1.ctxClosed then (b1, some "Error closing browser") else
  let b2 := if b1.ctxSet then { b1 with ctxClosed := true } else b1
  if b2.brSet && b2.brClosed then (b2, some "Error closing browser") else
  let b3 := if b2.brSet then { b2 with brClosed := true } else b2
  if b3.pwSet && b3.pwClosed then (b3, some "Error closing browser") else
  (if b3.pwSet then { b3 with pwClosed := true } else b3, none)

/-- A checker as start_browser leaves it: all four handles set, open. -/
def openBrowser : Browser :=
  ⟨true, false, true, false, true, false, true, false⟩

/-- A checker after a completed close: all four handles set, closed. -/
def closedBrowser : Browser :=
  ⟨true, true, true, true, true, true, true, true⟩

/-- ManualCaptchaHandle.solve (captcha_handler.py lines 78-84): ignores
the image bytes and returns Python's None — modelled as Option.none,
the sentinel meaning a human must solve the CAPTCHA — despite the
CaptchaHandle.solve interface annotating the return type as str. -/
def ManualCaptchaHandle.solve (_image : List Nat) : Option String :=
  none

/-! Concrete fixtures used by witnesses and counterexamples.  The request
is the scenario of the spec (section 8). -/

/-- The sample request from the spec's scenario list. -/
def req0 : CheckRequest :=
  ⟨"NEPAL, KATHMANDU", "AA00EILA2X", "PA123456", "SHARMA"⟩

/-- A submit outcome whose error message mentions the CAPTCHA: classified
as a CAPTCHA rejection by the retry loop. -/
def rejectedOutcome : SubmitResult :=
  ⟨false, some "The code entered does not match the CAPTCHA", none, []⟩

/-- An environment in which every fetch succeeds and every submission is
rejected as a wrong CAPTCHA. -/
def envAllRejected : AutoEnv := ⟨fun _ => true, fun _ => rejectedOutcome⟩

/-- A transient (timeout) outcome: an error that does not mention the
CAPTCHA. -/
def transientOutcome : SubmitResult :=
  ⟨false, some "Timeout 30000ms exceeded.", none, []⟩

/-- An environment whose first submission hits a transient timeout. -/
def envTransient : AutoEnv := ⟨fun _ => true, fun _ => transientOutcome⟩

/-- An environment in which every submission returns the error branch of
get_status_result with a CAPTCHA-rejection message. -/
def envErrorBranch : AutoEnv :=
  ⟨fun _ => true, fun _ => get_status_result_errors ["Invalid CAPTCHA code entered."]⟩

/-! Unfolding equations for the retry loop. -/

/-- When the retry budget is exhausted the loop body never runs. -/
theorem check_auto_loop_stop (req : CheckRequest) (env : AutoEnv)
    (N rc a : Nat) (h : ¬ rc < N) :
    check_auto_loop req env N rc a = ⟨none, rc, [], none⟩ := by
  unfold check_auto_loop
  have h0 : N - rc = 0 := by omega
  rw [h0]
  rfl

/-- One iteration of the loop while retries remain. -/
theorem check_auto_loop_step (req : CheckRequest) (env : AutoEnv)
    (N rc a : Nat) (h : rc < N) :
    check_auto_loop req env N rc a =
      (if env.fetchOk a then
        if (env.outcome a).success then
          ⟨some (env.outcome a), rc, [.fetchImage, .solveCaptcha, .submit], none⟩
        else if isCaptchaRejected (env.outcome a) then
          ⟨some ((check_auto_loop req env N (rc + 1) (a + 1)).result.getD (env.outcome a)),
           (check_auto_loop req env N (rc + 1) (a + 1)).finalRetry,
           .fetchImage :: .solveCaptcha :: .submit :: .incRetry :: .reloadPage ::
             .refillForm req.location req.application_id req.passport_number req.surname ::
               (check_auto_loop req env N (rc + 1) (a + 1)).trace,
           (check_auto_loop req env N (rc + 1) (a + 1)).raised⟩
        else
          ⟨some (env.outcome a), rc, [.fetchImage, .solveCaptcha, .submit], none⟩
      else ⟨none, rc, [.fetchImage], some "Failed to get CAPTCHA image"⟩) := by
  unfold check_auto_loop
  have h1 : N - rc = (N - (rc + 1)) + 1 := by omega
  rw [h1]
  rfl

/-- The loop performs at most fuel submissions. -/
theorem fuel_submit_le (req : CheckRequest) (env : AutoEnv) :
    ∀ fuel rc a,
      (check_auto_loop_fuel req env fuel rc a).trace.countP Action.isSubmitStep ≤ fuel := by
  intro fuel
  induction fuel with
  | zero => intro rc a; simp [check_auto_loop_fuel]
  | succ n ih =>
    intro rc a
    by_cases hf : env.fetchOk a
    · by_cases hs : (env.outcome a).success
      · simp [check_auto_loop_fuel, hf, hs, List.countP_cons, Action.isSubmitStep]
      · by_cases hc : isCaptchaRejected (env.outcome a)
        · have := ih (rc + 1) (a + 1)
          simp [check_auto_loop_fuel, hf, hs, hc, List.countP_cons, Action.isSubmitStep]
          omega
        · simp [check_auto_loop_fuel, hf, hs, hc, List.countP_cons, Action.isSubmitStep]
    · simp [check_auto_loop_fuel, hf, List.countP_cons, Action.isSubmitStep]

/-- The final retry count is the starting one plus the number of
increments in the trace: retry_count is incremented exactly where the
trace records an incRetry step. -/
theorem fuel_finalRetry_eq (req : CheckRequest) (env : AutoEnv) :
    ∀ fuel rc a,
      (check_auto_loop_fuel req env fuel rc a).finalRetry =
        rc + (check_auto_loop_fuel req env fuel rc a).trace.countP Action.isIncRetryStep := by
  intro fuel
  induction fuel with
  | zero => intro rc a; simp [check_auto_loop_fuel]
  | succ n ih =>
    intro rc a
    by_cases hf : env.fetchOk a
    · by_cases hs : (env.outcome a).success
      · simp [check_auto_loop_fuel, hf, hs, List.countP_cons, Action.isIncRetryStep]
      · by_cases hc : isCaptchaRejected (env.outcome a)
        · have := ih (rc + 1) (a + 1)
          simp [check_auto_loop_fuel, hf, hs, hc, List.countP_cons, Action.isIncRetryStep]
          omega
        · simp [check_auto_loop_fuel, hf, hs, hc, List.countP_cons, Action.isIncRetryStep]
    · simp [check_auto_loop_fuel, hf, List.countP_cons, Action.isIncRetryStep]

/-- When every fetch succeeds and every submission is rejected as a wrong
CAPTCHA, the loop burns its whole fuel: one submission and one retry
increment per unit of fuel, and the final result is a failure. -/
theorem fuel_all_rejected (req : CheckRequest) (env : AutoEnv)
    (hfetch : ∀ k, env.fetchOk k = true)
    (hrej : ∀ k, (env.outcome k).success = false ∧
                 isCaptchaRejected (env.outcome k) = true) :
    ∀ fuel rc a,
      (check_auto_loop_fuel req env fuel rc a).trace.countP Action.isSubmitStep = fuel ∧
      (check_auto_loop_fuel req env fuel rc a).finalRetry = rc + fuel ∧
      (check_auto_loop_fuel req env fuel rc a).trace.countP Action.isIncRetryStep = fuel ∧
      (check_auto_final_result (check_auto_loop_fuel req env fuel rc a)).success = false := by
  intro fuel
  induction fuel with
  | zero =>
    intro rc a
    simp [check_auto_loop_fuel, check_auto_final_result]
  | succ n ih =>
    intro rc a
    obtain ⟨hs, hc⟩ := hrej a
    obtain ⟨ih1, ih2, ih3, ih4⟩ := ih (rc + 1) (a + 1)
    refine ⟨?_, ?_, ?_, ?_⟩
    · simp [check_auto_loop_fuel, hfetch a, hs, hc, List.countP_cons,
            Action.isSubmitStep, ih1]
    · simp [check_auto_loop_fuel, hfetch a, hs, hc, ih2]
      omega
    · simp [check_auto_loop_fuel, hfetch a, hs, hc, List.countP_cons,
            Action.isIncRetryStep, ih3]
    · cases hres : (check_auto_loop_fuel req env n (rc + 1) (a + 1)).result with
      | none =>
        simp [check_auto_loop_fuel, hfetch a, hs, hc, check_auto_final_result, hres]
      | some r =>
        have hr : r.success = false := by
          simpa [check_auto_final_result, hres] using ih4
        simp [check_auto_loop_fuel, hfetch a, hs, hc, check_auto_final_result, hres, hr]

/-- The result variable, when set, holds one of the environment's
submission outcomes (from an attempt index at or after the start). -/
theorem fuel_result_mem (req : CheckRequest) (env : AutoEnv) :
    ∀ fuel rc a,
      (check_auto_loop_fuel req env fuel rc a).result = none ∨
      ∃ k, a ≤ k ∧
        (check_auto_loop_fuel req env fuel rc a).result = some (env.outcome k) := by
  intro fuel
  induction fuel with
  | zero => intro rc a; left; rfl
  | succ n ih =>
    intro rc a
    by_cases hf : env.fetchOk a
    · by_cases hs : (env.outcome a).success
      · right; exact ⟨a, le_refl a, by simp [check_auto_loop_fuel, hf, hs]⟩
      · by_cases hc : isCaptchaRejected (env.outcome a)
        · rcases ih (rc + 1) (a + 1) with hnone | ⟨k, hk, hkres⟩
          · right
            exact ⟨a, le_refl a, by simp [check_auto_loop_fuel, hf, hs, hc, hnone]⟩
          · right
            refine ⟨k, by omega, ?_⟩
            simp [check_auto_loop_fuel, hf, hs, hc, hkres]
        · right; exact ⟨a, le_refl a, by simp [check_auto_loop_fuel, hf, hs, hc]⟩
    · left; simp [check_auto_loop_fuel, hf]

/-- C1: for every valid check request, the check-auto retry loop with
maxRetries = N issues at most N CAPTCHA submissions (for any
environment); the final retry count always equals the number of
incRetry steps in the trace (the counter moves only where the trace
records an increment, i.e. on CAPTCHA rejection); and when every attempt
is rejected as a wrong CAPTCHA it issues exactly N submissions, ends
with retry_count = N after exactly N increments, and the endpoint's
final result is a failure.  The loop is a total function of the fuel
max_retries - retry_count, so the retry cycle terminates. -/
theorem checkAuto_retry_bound (req : CheckRequest) (env : AutoEnv) (N : Nat)
    (hfetch : ∀ k, env.fetchOk k = true)
    (hrej : ∀ k, (env.outcome k).success = false ∧
                 isCaptchaRejected (env.outcome k) = true) :
    (∀ env' : AutoEnv,
        (check_auto_loop req env' N 0 0).trace.countP Action.isSubmitStep ≤ N) ∧
    (∀ env' : AutoEnv,
        (check_auto_loop req env' N 0 0).finalRetry =
          (check_auto_loop req env' N 0 0).trace.countP Action.isIncRetryStep) ∧
    (check_auto_loop req env N 0 0).trace.countP Action.isSubmitStep = N ∧
    (check_auto_loop req env N 0 0).finalRetry = N ∧
    (check_auto_loop req env N 0 0).trace.countP Action.isIncRetryStep = N ∧
    (check_auto_final_result (check_auto_loop req env N 0 0)).success = false := by
  have hN : N - 0 = N := by omega
  obtain ⟨h1, h2, h3, h4⟩ := fuel_all_rejected req env hfetch hrej (N - 0) 0 0
  refine ⟨?_, ?_, ?_, ?_, ?_, ?_⟩
  · intro env'
    have := fuel_submit_le req env' (N - 0) 0 0
    simpa [check_auto_loop, hN] using this
  · intro env'
    have := fuel_finalRetry_eq req env' (N - 0) 0 0
    simpa [check_auto_loop, hN] using this
  · simpa [check_auto_loop, hN] using h1
  · simpa [check_auto_loop, hN] using h2
  · simpa [check_auto_loop, hN] using h3
  · simpa [check_auto_loop, hN] using h4

/-- C1 witness: the spec's scenario request, maxRetries = 3, every
attempt rejected: exactly 3 submissions and a failing final result. -/
theorem checkAuto_retry_bound_witness :
    (check_auto_loop req0 envAllRejected 3 0 0).trace.countP Action.isSubmitStep = 3 ∧
    (check_auto_loop req0 envAllRejected 3 0 0).finalRetry = 3 ∧
    (check_auto_final_result (check_auto_loop req0 envAllRejected 3 0 0)).success = false := by
  obtain ⟨-, -, h3, h4, -, h6⟩ :=
    checkAuto_retry_bound req0 envAllRejected 3 (fun _ => rfl)
      (fun _ => ⟨rfl, (by decide : isCaptchaRejected rejectedOutcome = true)⟩)
  exact ⟨h3, h4, h6⟩

/-- C5 counterexample: with the spec's scenario request, maxRetries = 3
and a first outcome that is a transient timeout (an error that does not
mention the CAPTCHA), the loop stops after exactly one submission with
retry_count still 0 and that failure as result — the transient outcome
is not retried at the same step, contradicting the claim. -/
theorem transient_not_retried_cex :
    (check_auto_loop req0 envTransient 3 0 0).trace.countP Action.isSubmitStep = 1 ∧
    (check_auto_loop req0 envTransient 3 0 0).finalRetry = 0 ∧
    (check_auto_loop req0 envTransient 3 0 0).result = some transientOutcome := by
  decide

/-- C5 amended: an outcome that fails without being classified as a
CAPTCHA rejection (a transient network/timeout error included)
immediately terminates the retry loop: the loop returns that failure
after the one submission, with the retry count unchanged, so it does not
consume the CAPTCHA retry budget — there is no same-step retry of
transient outcomes. -/
theorem transient_terminates_loop (req : CheckRequest) (env : AutoEnv)
    (N rc a : Nat) (h : rc < N) (hf : env.fetchOk a = true)
    (hs : (env.outcome a).success = false)
    (hnc : isCaptchaRejected (env.outcome a) = false) :
    check_auto_loop req env N rc a =
      ⟨some (env.outcome a), rc, [.fetchImage, .solveCaptcha, .submit], none⟩ := by
  rw [check_auto_loop_step req env N rc a h]
  simp [hf, hs, hnc]

/-- C5 amended witness. -/
theorem transient_terminates_loop_witness :
    check_auto_loop req0 envTransient 3 0 0 =
      ⟨some transientOutcome, 0, [.fetchImage, .solveCaptcha, .submit], none⟩ :=
  transient_terminates_loop req0 envTransient 3 0 0 (by decide) rfl rfl (by decide)

/-- C6: on a CAPTCHA rejection with retries remaining, the loop appends
exactly, in this order: the retry-count increment, the page reload and
the form re-fill with the same request fields — after the submission and
before the next iteration, whose trace starts with fetching a new
CAPTCHA image; the continuation runs at retry_count + 1. -/
theorem captcha_rejected_reload_refill (req : CheckRequest) (env : AutoEnv)
    (N rc a : Nat) (h2 : rc + 1 < N) (hf : env.fetchOk a = true)
    (hs : (env.outcome a).success = false)
    (hc : isCaptchaRejected (env.outcome a) = true)
    (hf2 : env.fetchOk (a + 1) = true) :
    (check_auto_loop req env N rc a).trace =
      Action.fetchImage :: Action.solveCaptcha :: Action.submit ::
      Action.incRetry :: Action.reloadPage ::
      Action.refillForm req.location req.application_id req.passport_number req.surname ::
        (check_auto_loop req env N (rc + 1) (a + 1)).trace ∧
    (check_auto_loop req env N (rc + 1) (a + 1)).trace.head? =
      some Action.fetchImage ∧
    (check_auto_loop req env N rc a).finalRetry =
      (check_auto_loop req env N (rc + 1) (a + 1)).finalRetry := by
  have h1 : rc < N := by omega
  refine ⟨?_, ?_, ?_⟩
  · rw [check_auto_loop_step req env N rc a h1]
    simp [hf, hs, hc]
  · rw [check_auto_loop_step req env N (rc + 1) (a + 1) h2]
    by_cases hs2 : (env.outcome (a + 1)).success
    · simp [hf2, hs2]
    · by_cases hc2 : isCaptchaRejected (env.outcome (a + 1))
      · simp [hf2, hs2, hc2]
      · simp [hf2, hs2, hc2]
  · rw [check_auto_loop_step req env N rc a h1]
    simp [hf, hs, hc]

/-- C6 witness: first attempt rejected with maxRetries = 3. -/
theorem captcha_rejected_reload_refill_witness :
    (check_auto_loop req0 envAllRejected 3 0 0).trace =
      Action.fetchImage :: Action.solveCaptcha :: Action.submit ::
      Action.incRetry :: Action.reloadPage ::
      Action.refillForm "NEPAL, KATHMANDU" "AA00EILA2X" "PA123456" "SHARMA" ::
        (check_auto_loop req0 envAllRejected 3 1 1).trace ∧
    (check_auto_loop req0 envAllRejected 3 1 1).trace.head? =
      some Action.fetchImage ∧
    (check_auto_loop req0 envAllRejected 3 0 0).finalRetry =
      (check_auto_loop req0 envAllRejected 3 1 1).finalRetry :=
  captcha_rejected_reload_refill req0 envAllRejected 3 0 0 (by decide) rfl rfl
    (by decide) rfl

/-- C8 counterexample: with every attempt returning the error branch of
get_status_result carrying a CAPTCHA-rejection message, the loop
exhausts its 3 retries and the endpoint's final failure result carries
no image at all (screenshot is none), contradicting the claim that the
last known CAPTCHA image is returned for manual fallback. -/
theorem exhausted_retries_no_image_cex :
    (check_auto_loop req0 envErrorBranch 3 0 0).finalRetry = 3 ∧
    (check_auto_final_result (check_auto_loop req0 envErrorBranch 3 0 0)).success = false ∧
    (check_auto_final_result (check_auto_loop req0 envErrorBranch 3 0 0)).screenshot = none := by
  decide

/-- C8 amended: when every submission outcome comes from the error
branch of get_status_result (the branch that reports a wrong CAPTCHA),
the final result the endpoint returns after the loop — retries exhausted
or not — is a failure that carries no image: the error branch attaches
no screenshot, and the check-auto flow does not attach the last fetched
CAPTCHA image to the returned result. -/
theorem exhausted_retries_result_has_no_image (req : CheckRequest)
    (env : AutoEnv) (N : Nat)
    (h : ∀ k, ∃ es, env.outcome k = get_status_result_errors es) :
    (check_auto_final_result (check_auto_loop req env N 0 0)).success = false ∧
    (check_auto_final_result (check_auto_loop req env N 0 0)).screenshot = none := by
  rcases fuel_result_mem req env (N - 0) 0 0 with hnone | ⟨k, -, hk⟩
  · have hres : (check_auto_loop req env N 0 0).result = none := hnone
    constructor <;> simp [check_auto_final_result, hres]
  · obtain ⟨es, hes⟩ := h k
    rw [hes] at hk
    have hres : (check_auto_loop req env N 0 0).result =
        some (get_status_result_errors es) := hk
    constructor <;>
      simp [check_auto_final_result, hres, get_status_result_errors]

/-- C8 amended witness. -/
theorem exhausted_retries_result_has_no_image_witness :
    (check_auto_final_result (check_auto_loop req0 envErrorBranch 4 0 0)).success = false ∧
    (check_auto_final_result (check_auto_loop req0 envErrorBranch 4 0 0)).screenshot = none :=
  exhausted_retries_result_has_no_image req0 envErrorBranch 4
    (fun _ => ⟨["Invalid CAPTCHA code entered."], rfl⟩)

/-! Registry lemmas. -/

/-- After filtering a key out, no entry with that key is found. -/
theorem find?_filter_not_self (l : List (String × VisaStatusChecker))
    (sid : String) :
    (l.filter (fun p => !(p.1 == sid))).find? (fun p => p.1 == sid) = none := by
  induction l with
  | nil => rfl
  | cons p l ih =>
    by_cases hp : p.1 = sid
    · simp [List.filter_cons, hp, ih]
    · simp [List.filter_cons, hp, List.find?_cons, ih]

/-- Filtering one key out does not change lookups of another key. -/
theorem find?_filter_ne (l : List (String × VisaStatusChecker))
    (sid x : String) (h : sid ≠ x) :
    (l.filter (fun p => !(p.1 == x))).find? (fun p => p.1 == sid) =
      l.find? (fun p => p.1 == sid) := by
  induction l with
  | nil => rfl
  | cons p l ih =>
    by_cases hpx : p.1 = x
    · have hdrop : List.filter (fun p => !(p.1 == x)) (p :: l) =
          List.filter (fun p => !(p.1 == x)) l := by
        simp [List.filter_cons, hpx]
      have hps : ¬ ((fun p => p.1 == x) p = true) → False := fun hf => hf (by simp [hpx])
      have hkeep : List.find? (fun p => p.1 == sid) (p :: l) =
          List.find? (fun p => p.1 == sid) l := by
        refine List.find?_cons_of_neg l ?_
        simp [hpx]
        exact fun hx => h hx.symm
      rw [hdrop, hkeep, ih]
    · have hdrop : List.filter (fun p => !(p.1 == x)) (p :: l) =
          p :: List.filter (fun p => !(p.1 == x)) l := by
        simp [List.filter_cons, hpx]
      rw [hdrop]
      by_cases hps : p.1 = sid
      · rw [List.find?_cons_of_pos _ (by simp [hps]),
            List.find?_cons_of_pos _ (by simp [hps])]
      · rw [List.find?_cons_of_neg _ (by simp [hps]),
            List.find?_cons_of_neg _ (by simp [hps]), ih]

/-- Popping a session removes it from the registry. -/
theorem lookupSession_pop_self (st : ServerState) (sid : String) :
    lookupSession (popSession st sid).1 sid = none := by
  simp [lookupSession, popSession, find?_filter_not_self]

/-- Appending to the closed log does not change the registry. -/
theorem lookupSession_logClose (st : ServerState) (x sid : String) :
    lookupSession (logClose st x) sid = lookupSession st sid := rfl

/-- C2: Resume is single-shot.  Once submit_visa_check has run on a
session id present in the registry — whatever the submission outcome,
and also when the session had expired — the id is gone from the registry
and its browser release is recorded before the call returns, and a
second submit_visa_check call with the same id (and any answer) leaves
the state unchanged and answers with the invalid-or-expired-session
error (the NotFound of the spec). -/
theorem resume_single_shot (st : ServerState) (now now2 : Nat)
    (sid sol sol2 : String) (outc outc2 : SubmitResult)
    (chk : VisaStatusChecker)
    (h : lookupSession st sid = some chk) :
    lookupSession (submit_visa_check st now (some sid) (some sol) outc).1 sid = none ∧
    sid ∈ (submit_visa_check st now (some sid) (some sol) outc).1.closed ∧
    submit_visa_check (submit_visa_check st now (some sid) (some sol) outc).1
        now2 (some sid) (some sol2) outc2 =
      ((submit_visa_check st now (some sid) (some sol) outc).1,
       ⟨false, some "Invalid or expired session", 400, none⟩) := by
  have hstate : (submit_visa_check st now (some sid) (some sol) outc).1 =
      logClose (popSession st sid).1 sid := by
    simp only [submit_visa_check, h]
    by_cases he : chk.is_expired now <;> simp [he]
  have hlk : lookupSession (logClose (popSession st sid).1 sid) sid = none := by
    rw [lookupSession_logClose]
    exact lookupSession_pop_self st sid
  refine ⟨?_, ?_, ?_⟩
  · rw [hstate]; exact hlk
  · rw [hstate]; simp [logClose, popSession]
  · rw [hstate]
    simp [submit_visa_check, hlk]

/-- C2 witness. -/
theorem resume_single_shot_witness :
    lookupSession (submit_visa_check ⟨[("abc", ⟨7⟩)], ["abc"], []⟩ 10
        (some "abc") (some "X4TZP") rejectedOutcome).1 "abc" = none ∧
    "abc" ∈ (submit_visa_check ⟨[("abc", ⟨7⟩)], ["abc"], []⟩ 10
        (some "abc") (some "X4TZP") rejectedOutcome).1.closed ∧
    submit_visa_check (submit_visa_check ⟨[("abc", ⟨7⟩)], ["abc"], []⟩ 10
        (some "abc") (some "X4TZP") rejectedOutcome).1
        11 (some "abc") (some "X4TZP") rejectedOutcome =
      ((submit_visa_check ⟨[("abc", ⟨7⟩)], ["abc"], []⟩ 10
          (some "abc") (some "X4TZP") rejectedOutcome).1,
       ⟨false, some "Invalid or expired session", 400, none⟩) :=
  resume_single_shot ⟨[("abc", ⟨7⟩)], ["abc"], []⟩ 10 11 "abc" "X4TZP" "X4TZP"
    rejectedOutcome rejectedOutcome ⟨7⟩ (by decide)

/-- C3: with only the manual (human-required) solver configured, a
check-auto request whose fields pass validation is answered immediately
with the capability-unavailable error, and the server state is returned
unchanged: no session is created in the registry and no browser is
started. -/
theorem manual_solver_capability_unavailable (st : ServerState)
    (req : CheckRequest) (N : Nat) (sid : String) (now : Nat)
    (navOk fillOk : Bool) (env : AutoEnv)
    (hval : validFields req = true) :
    check_visa_status_auto st SolverKind.manual req N sid now navOk fillOk env =
      (st, ⟨false,
            some "Automatic CAPTCHA solving not available. ONNX model not loaded.",
            400, none⟩) := by
  simp [check_visa_status_auto, hval]

/-- C3 witness: on the empty registry, with the spec's scenario request. -/
theorem manual_solver_capability_unavailable_witness :
    check_visa_status_auto ⟨[], [], []⟩ SolverKind.manual req0 3 "abc" 0
        true true envAllRejected =
      (⟨[], [], []⟩,
       ⟨false,
        some "Automatic CAPTCHA solving not available. ONNX model not loaded.",
        400, none⟩) :=
  manual_solver_capability_unavailable ⟨[], [], []⟩ req0 3 "abc" 0 true true
    envAllRejected (by decide)

/-- C4 counterexample: creating a session under an id already in use
does not fail: the dict assignment silently replaces the existing entry
(its checker, created at time 0, is gone) and its browser release is
never recorded. -/
theorem create_duplicate_cex :
    lookupSession (createSession ⟨[("s", ⟨0⟩)], ["s"], []⟩ "s" 5) "s" = some ⟨5⟩ ∧
    lookupSession (createSession ⟨[("s", ⟨0⟩)], ["s"], []⟩ "s" 5) "s" ≠ some ⟨0⟩ ∧
    (createSession ⟨[("s", ⟨0⟩)], ["s"], []⟩ "s" 5).closed = [] ∧
    (createSession ⟨[("s", ⟨0⟩)], ["s"], []⟩ "s" 5).sessions.length = 1 := by
  decide

/-- Replacing the entry of a key that occurs in the list makes lookups
of that key find the replacement. -/
theorem find?_map_replace (l : List (String × VisaStatusChecker))
    (sid : String) (c : VisaStatusChecker)
    (h : ∃ p ∈ l, p.1 = sid) :
    (l.map (fun q => if q.1 == sid then (sid, c) else q)).find?
      (fun q => q.1 == sid) = some (sid, c) := by
  induction l with
  | nil =>
    rcases h with ⟨p, hp, -⟩
    cases hp
  | cons q l ih =>
    by_cases hq : q.1 = sid
    · simp [hq, List.find?_cons]
    · rcases h with ⟨p, hp, hps⟩
      rcases List.mem_cons.mp hp with rfl | hpl
      · exact absurd hps hq
      · simpa [List.find?_cons, hq] using ih ⟨p, hpl, hps⟩

/-- C4 amended: creating a session with an id that is already in use
does not raise a DuplicateID error; the dict assignment replaces the
existing entry with the new checker (same registry size), discarding the
old one without releasing its resource (the closed log is unchanged). -/
theorem create_duplicate_replaces (st : ServerState) (sid : String)
    (now : Nat) (c : VisaStatusChecker)
    (h : lookupSession st sid = some c) :
    lookupSession (createSession st sid now) sid = some ⟨now⟩ ∧
    (createSession st sid now).closed = st.closed ∧
    (createSession st sid now).started = st.started ∧
    (createSession st sid now).sessions.length = st.sessions.length := by
  obtain ⟨p, hp, -⟩ : ∃ p, st.sessions.find? (fun q => q.1 == sid) = some p ∧ p.2 = c := by
    rcases ho : st.sessions.find? (fun q => q.1 == sid) with - | p
    · simp [lookupSession, ho] at h
    · exact ⟨p, ho, by simpa [lookupSession, ho] using h⟩
  have hmem := List.mem_of_find?_eq_some hp
  have hpb := List.find?_some hp
  have hpred : p.1 = sid := by simpa using hpb
  have hany : st.sessions.any (fun q => q.1 == sid) = true :=
    List.any_eq_true.mpr ⟨p, hmem, hpb⟩
  have hrepl := find?_map_replace st.sessions sid ⟨now⟩ ⟨p, hmem, hpred⟩
  have hcs : createSession st sid now =
      ServerState.mk
        (st.sessions.map (fun q => if q.1 == sid then (sid, ⟨now⟩) else q))
        st.started st.closed := by
    unfold createSession storeSession
    rw [if_pos hany]
  refine ⟨?_, ?_, ?_, ?_⟩
  · rw [hcs]
    unfold lookupSession
    rw [hrepl]
    rfl
  · rw [hcs]
  · rw [hcs]
  · rw [hcs]
    simp

/-- C4 amended witness. -/
theorem create_duplicate_replaces_witness :
    lookupSession (createSession ⟨[("s", ⟨0⟩)], ["s"], []⟩ "s" 5) "s" = some ⟨5⟩ ∧
    (createSession ⟨[("s", ⟨0⟩)], ["s"], []⟩ "s" 5).closed = [] ∧
    (createSession ⟨[("s", ⟨0⟩)], ["s"], []⟩ "s" 5).started = ["s"] ∧
    (createSession ⟨[("s", ⟨0⟩)], ["s"], []⟩ "s" 5).sessions.length =
      [("s", (⟨0⟩ : VisaStatusChecker))].length :=
  create_duplicate_replaces ⟨[("s", ⟨0⟩)], ["s"], []⟩ "s" 5 ⟨0⟩ (by decide)

/-! Reaper lemmas. -/

/-- Reaping an id removes it from the registry. -/
theorem lookup_reapOne_self (s : ServerState) (x : String) :
    lookupSession (reapOne s x) x = none := by
  unfold reapOne popSession
  cases hc : lookupSession s x with
  | none => simp [lookupSession, find?_filter_not_self]
  | some c => simp [lookupSession, logClose, find?_filter_not_self]

/-- Reaping one id does not disturb lookups of another. -/
theorem lookup_reapOne_ne (s : ServerState) (x sid : String) (h : sid ≠ x) :
    lookupSession (reapOne s x) sid = lookupSession s sid := by
  unfold reapOne popSession
  cases hc : lookupSession s x with
  | none => simp [lookupSession, find?_filter_ne _ sid x h]
  | some c => simp [lookupSession, logClose, find?_filter_ne _ sid x h]

/-- The closed log after reaping one id. -/
theorem closed_reapOne (s : ServerState) (x : String) :
    (reapOne s x).closed =
      if (lookupSession s x).isSome then s.closed ++ [x] else s.closed := by
  unfold reapOne popSession
  cases hc : lookupSession s x with
  | none => simp [logClose]
  | some c => simp [logClose]

/-- Folding the reaper over ids the key is not among leaves its closure
count unchanged. -/
theorem closed_count_fold_notmem (sid : String) :
    ∀ (L : List String), sid ∉ L →
      ∀ s : ServerState, (L.foldl reapOne s).closed.count sid = s.closed.count sid := by
  intro L
  induction L with
  | nil => intro _ s; rfl
  | cons x xs ih =>
    intro h s
    have hx : sid ≠ x := fun he => h (he ▸ List.mem_cons_self x xs)
    have hxs : sid ∉ xs := fun hm => h (List.mem_cons_of_mem _ hm)
    rw [List.foldl_cons, ih hxs]
    rw [closed_reapOne]
    by_cases hsome : (lookupSession s x).isSome
    · simp [hsome, List.count_append, List.count_singleton', hx]
    · simp [hsome]

/-- After folding the reaper over a list of ids containing a key, that
key is gone from the registry; other keys keep their entries. -/
theorem lookup_fold (sid : String) :
    ∀ (L : List String) (s : ServerState),
      lookupSession (L.foldl reapOne s) sid =
        if sid ∈ L then none else lookupSession s sid := by
  intro L
  induction L with
  | nil => intro s; simp
  | cons x xs ih =>
    intro s
    rw [List.foldl_cons, ih]
    by_cases hx : sid = x
    · subst hx
      by_cases hm : sid ∈ xs
      · simp [hm]
      · simp [hm, lookup_reapOne_self]
    · by_cases hm : sid ∈ xs
      · simp [hm, hx]
      · simp [hm, hx, lookup_reapOne_ne s x sid hx]

/-- Folding the reaper over a duplicate-free list of ids containing a
present key records exactly one release of that key. -/
theorem closed_count_fold_mem (sid : String) :
    ∀ (L : List String), L.Nodup → sid ∈ L →
      ∀ s : ServerState, (lookupSession s sid).isSome →
        (L.foldl reapOne s).closed.count sid = s.closed.count sid + 1 := by
  intro L
  induction L with
  | nil => intro _ hm; cases hm
  | cons x xs ih =>
    intro hnd hm s hsome
    obtain ⟨hxnot, hndxs⟩ := List.nodup_cons.mp hnd
    rw [List.foldl_cons]
    by_cases hx : sid = x
    · subst hx
      rw [closed_count_fold_notmem sid xs hxnot]
      rw [closed_reapOne]
      simp [hsome, List.count_append, List.count_singleton']
    · have hm2 : sid ∈ xs := by
        rcases List.mem_cons.mp hm with h1 | h2
        · exact absurd h1 hx
        · exact h2
      have hsome2 : (lookupSession (reapOne s x) sid).isSome := by
        rw [lookup_reapOne_ne s x sid hx]
        exact hsome
      rw [ih hndxs hm2 (reapOne s x) hsome2, closed_reapOne]
      by_cases hs : (lookupSession s x).isSome
      · simp [hs, List.count_append, List.count_singleton', hx]
      · simp [hs]

/-- Distinct pairs of a keys-duplicate-free association list with the
same key are equal. -/
theorem keys_nodup_pair_eq :
    ∀ (l : List (String × VisaStatusChecker)),
      (l.map (fun p => p.1)).Nodup →
      ∀ p q : String × VisaStatusChecker, p ∈ l → q ∈ l → p.1 = q.1 → p = q := by
  intro l
  induction l with
  | nil => intro _ p q hp; cases hp
  | cons a l ih =>
    intro hnd p q hp hq h1
    have hnd2 : a.1 ∉ l.map (fun p => p.1) ∧ (l.map (fun p => p.1)).Nodup := by
      simpa [List.nodup_cons] using hnd
    rcases List.mem_cons.mp hp with rfl | hpl
    · rcases List.mem_cons.mp hq with rfl | hql
      · rfl
      · exact absurd (List.mem_map.mpr ⟨q, hql, h1.symm⟩) hnd2.1
    · rcases List.mem_cons.mp hq with rfl | hql
      · exact absurd (List.mem_map.mpr ⟨p, hpl, h1⟩) hnd2.1
      · exact ih hnd2.2 p q hpl hql h1

/-- With duplicate-free keys, membership of a looked-up session's id in
the reaper's expired-id list is exactly its expiry. -/
theorem mem_expiredIds (st : ServerState) (now : Nat) (sid : String)
    (c : VisaStatusChecker)
    (hnd : (st.sessions.map (fun p => p.1)).Nodup)
    (h : lookupSession st sid = some c) :
    (sid ∈ expiredIds st now ↔ c.is_expired now = true) := by
  obtain ⟨p, hp, hp2⟩ : ∃ p, st.sessions.find? (fun q => q.1 == sid) = some p ∧ p.2 = c := by
    rcases ho : st.sessions.find? (fun q => q.1 == sid) with - | p
    · simp [lookupSession, ho] at h
    · exact ⟨p, ho, by simpa [lookupSession, ho] using h⟩
  have hmem := List.mem_of_find?_eq_some hp
  have hpb := List.find?_some hp
  have hpred : p.1 = sid := by simpa using hpb
  constructor
  · intro hm
    obtain ⟨q, hqmem, hq1⟩ := List.mem_map.mp hm
    obtain ⟨hql, hqexp⟩ := List.mem_filter.mp hqmem
    have : q = p := keys_nodup_pair_eq st.sessions hnd q p hql hmem (by rw [hq1, hpred])
    subst this
    rw [← hp2]
    simpa using hqexp
  · intro hexp
    refine List.mem_map.mpr ⟨p, List.mem_filter.mpr ⟨hmem, ?_⟩, hpred⟩
    rw [hp2]
    simpa using hexp

/-- The expired-id list is duplicate-free when the registry's keys are. -/
theorem expiredIds_nodup (st : ServerState) (now : Nat)
    (hnd : (st.sessions.map (fun p => p.1)).Nodup) :
    (expiredIds st now).Nodup := by
  unfold expiredIds
  exact List.Nodup.sublist
    (List.Sublist.map (fun p => p.1) (List.filter_sublist st.sessions)) hnd

/-- A key absent per lookup is absent from the key list. -/
theorem lookup_none_not_mem_keys (s : ServerState) (sid : String)
    (h : lookupSession s sid = none) :
    sid ∉ s.sessions.map (fun p => p.1) := by
  intro hm
  obtain ⟨p, hp, hp1⟩ := List.mem_map.mp hm
  have hfind : s.sessions.find? (fun q => q.1 == sid) = none := by
    rcases ho : s.sessions.find? (fun q => q.1 == sid) with - | q
    · exact ho
    · simp [lookupSession, ho] at h
  have := List.find?_eq_none.mp hfind p hp
  simp [hp1] at this

/-- C7: a session is expired exactly when strictly more than
SESSION_TIMEOUT = 300 seconds have elapsed since its creation time (not
since last activity — the checker records only created_at); after one
reaper cycle an expired session is gone from the registry — hence absent
from the session listing — with its browser release recorded exactly
once, while a non-expired session survives untouched. -/
theorem reaper_cycle_expiry (st : ServerState) (now : Nat) (sid : String)
    (c : VisaStatusChecker)
    (hnd : (st.sessions.map (fun p => p.1)).Nodup)
    (h : lookupSession st sid = some c) :
    (c.is_expired now = decide (300 < now - c.created_at)) ∧
    (c.is_expired now = true →
        lookupSession (cleanup_expired_sessions_cycle st now) sid = none ∧
        sid ∉ (list_sessions (cleanup_expired_sessions_cycle st now) now).map
            (fun t => t.1) ∧
        (cleanup_expired_sessions_cycle st now).closed.count sid =
          st.closed.count sid + 1) ∧
    (c.is_expired now = false →
        lookupSession (cleanup_expired_sessions_cycle st now) sid = some c) := by
  refine ⟨rfl, ?_, ?_⟩
  · intro hexp
    have hm : sid ∈ expiredIds st now := (mem_expiredIds st now sid c hnd h).mpr hexp
    have hlk : lookupSession (cleanup_expired_sessions_cycle st now) sid = none := by
      unfold cleanup_expired_sessions_cycle
      rw [lookup_fold sid (expiredIds st now) st]
      simp [hm]
    refine ⟨hlk, ?_, ?_⟩
    · have := lookup_none_not_mem_keys _ sid hlk
      intro hmem
      refine this ?_
      obtain ⟨t, ht, ht1⟩ := List.mem_map.mp hmem
      obtain ⟨q, hq, hqt⟩ := List.mem_map.mp ht
      exact List.mem_map.mpr ⟨q, hq, by rw [← ht1, ← hqt]⟩
    · unfold cleanup_expired_sessions_cycle
      exact closed_count_fold_mem sid (expiredIds st now)
        (expiredIds_nodup st now hnd) hm st (by simp [h])
  · intro hexp
    have hm : sid ∉ expiredIds st now := by
      rw [mem_expiredIds st now sid c hnd h, hexp]
      simp
    unfold cleanup_expired_sessions_cycle
    rw [lookup_fold sid (expiredIds st now) st]
    simp [hm, h]

/-- C7 witness: a registry with one session created at time 0 and one at
time 350, observed at time 400: the first is expired (400 seconds old),
is gone after one reaper cycle with exactly one recorded release, while
the second (50 seconds old) survives. -/
theorem reaper_cycle_expiry_witness :
    lookupSession
        (cleanup_expired_sessions_cycle
          ⟨[("old", ⟨0⟩), ("new", ⟨350⟩)], ["old", "new"], []⟩ 400) "old" = none ∧
    (cleanup_expired_sessions_cycle
        ⟨[("old", ⟨0⟩), ("new", ⟨350⟩)], ["old", "new"], []⟩ 400).closed.count "old" =
      ([] : List String).count "old" + 1 ∧
    lookupSession
        (cleanup_expired_sessions_cycle
          ⟨[("old", ⟨0⟩), ("new", ⟨350⟩)], ["old", "new"], []⟩ 400) "new" =
      some ⟨350⟩ := by
  have h1 := reaper_cycle_expiry
    ⟨[("old", ⟨0⟩), ("new", ⟨350⟩)], ["old", "new"], []⟩ 400 "old" ⟨0⟩
    (by decide) (by decide)
  have h2 := reaper_cycle_expiry
    ⟨[("old", ⟨0⟩), ("new", ⟨350⟩)], ["old", "new"], []⟩ 400 "new" ⟨350⟩
    (by decide) (by decide)
  obtain ⟨ha, -, hcnt⟩ := h1.2.1 (by decide)
  exact ⟨ha, hcnt, h2.2.2 (by decide)⟩

/-- C9: close_browser is safe to call twice on any checker state: a
second call is a no-op on the state — any double-close error the
underlying handles raise is caught inside the call (the Option String
component is a logged message, never a propagated exception, and the
function is total, so no error ever escapes).  Concretely, on the state
start_browser leaves, the first call closes all four handles without an
internal error, and the second call — the normal-completion/reaper race
— swallows the double-close error and leaves the fully-closed state as
it is. -/
theorem close_browser_idempotent_and_safe :
    (∀ ps pc cs cc bs bc ws wc : Bool,
        (close_browser (close_browser ⟨ps, pc, cs, cc, bs, bc, ws, wc⟩).1).1 =
          (close_browser ⟨ps, pc, cs, cc, bs, bc, ws, wc⟩).1) ∧
    close_browser openBrowser = (closedBrowser, none) ∧
    close_browser closedBrowser = (closedBrowser, some "Error closing browser") ∧
    (close_browser (close_browser openBrowser).1).1 = (close_browser openBrowser).1 := by
  refine ⟨?_, ?_, ?_, ?_⟩ <;> decide

/-- C10: ManualCaptchaHandle.solve returns the None sentinel — not a
string — for every input image, marking the CAPTCHA as needing a human;
a caller that wants an automatically produced string cannot get one from
this handler. -/
theorem manual_solve_returns_none :
    ∀ image : List Nat, ManualCaptchaHandle.solve image = none ∧
      ∀ s : String, ManualCaptchaHandle.solve image ≠ some s :=
  fun _ => ⟨rfl, fun _ h => Option.noConfusion h⟩

end VisaServer
